import Mathlib

/-
Verification of the session/authentication module of the GoBarber mobile
client (src/hooks/auth.tsx).  The module owns the in-memory credential,
its persisted copy in AsyncStorage (keys '@GoBarber:token' and
'@GoBarber:user'), and the axios default authorization header.

The embedding models the observable system state as one record and each
operation of the module (the restore effect `loadStorageData`, `signIn`,
`signOut`, `updateUser`, and the `useAuth` accessor) as a function on it,
translated statement by statement from the source.  External collaborators
(AsyncStorage, the remote login call, the JSON builtins) are modelled at
their interface: batched storage writes are atomic, their outcome and the
remote response are passed in as parameters, and JSON.stringify/JSON.parse
on user records are modelled by an inductive of storable blobs.
-/

namespace GoBarber

/-- The `User` record of src/hooks/auth.tsx: `{id, name, email, avatarURL}`. -/
structure User where
  id : String
  name : String
  email : String
  avatarURL : String
deriving Repr, DecidableEq

/-- Contents of the '@GoBarber:user' storage cell, modelling the JS JSON
builtins at their interface: `enc u` is the output of `JSON.stringify`
on the user record `u` (injective, never the empty string), and
`malformed s` is any stored string on which `JSON.parse` throws. -/
inductive StoredUser where
  | enc (u : User)
  | malformed (s : String)
deriving Repr, DecidableEq

/-- JS truthiness of the stored user string: `JSON.stringify` of a record
is a nonempty string, hence truthy; a malformed blob is truthy iff it is
not the empty string. -/
def StoredUser.truthy : StoredUser → Bool
  | .enc _ => true
  | .malformed s => s ≠ ""

/-- `JSON.parse` applied to a stored user blob (the cast to `User` in the
source is unchecked): succeeds exactly on `JSON.stringify` output and
throws a SyntaxError otherwise. -/
def jsonParseUser : StoredUser → Except String User
  | .enc u => .ok u
  | .malformed _ => .error "SyntaxError"

/-- Observable state of the session module:
the two AsyncStorage cells ('@GoBarber:token', '@GoBarber:user'),
the axios default authorization header (`api.defaults.headers.authorization`),
the React state `data` (typed `AuthState` in the source but initialised to
`{} as AuthState`, so each field is `undefined` until set — hence two
`Option` fields), and the `loading` flag. -/
structure SysState where
  storageToken : Option String
  storageUser : Option StoredUser
  apiAuthHeader : Option String
  dataToken : Option String
  dataUser : Option User
  loading : Bool
deriving Repr, DecidableEq

/-- JS truthiness of an `AsyncStorage.multiGet` result entry: the value is
`null` when the key is absent, and the empty string is also falsy. -/
def strTruthy : Option String → Bool
  | none => false
  | some s => s ≠ ""

/-- Truthiness of the stored user cell, as tested by `user[1] &&` in the
source. -/
def storedUserTruthy : Option StoredUser → Bool
  | none => false
  | some su => su.truthy

/-- `loadStorageData` of src/hooks/auth.tsx, run at provider mount:
multiGet both keys; if both values are truthy, set the authorization
header to the bearer token, then `setData({token, user: JSON.parse(...)})`;
finally `setLoading(false)`.  The source has no try/catch, so a
`JSON.parse` throw escapes the async function after the header assignment
and before `setLoading(false)`; the result pairs the state reached with
the thrown error, if any. -/
def loadStorageData (s : SysState) : SysState × Option String :=
  match s.storageToken, s.storageUser with
  | some t, some su =>
    if strTruthy (some t) && su.truthy then
      let s₁ := { s with apiAuthHeader := some ("Bearer " ++ t) }
      match jsonParseUser su with
      | .ok u =>
        ({ s₁ with dataToken := some t, dataUser := some u, loading := false }, none)
      | .error e => (s₁, some e)
    else
      ({ s with loading := false }, none)
  | _, _ => ({ s with loading := false }, none)

/-- `signIn` of src/hooks/auth.tsx.  `remote` is the outcome of
`api.post('sessions', {email, password})` (its `response.data` destructured
as `{token, user}`); `storeErr` is the outcome of the batched
`AsyncStorage.multiSet` (`none` = resolved, `some e` = rejected, leaving
the batch unwritten).  On a remote rejection or a storage rejection the
error propagates and nothing later in the body runs; on success the order
is multiSet, then the header assignment, then `setData`. -/
def signIn (remote : Except String (String × User)) (storeErr : Option String)
    (s : SysState) : SysState × Option String :=
  match remote with
  | .error e => (s, some e)
  | .ok (t, u) =>
    match storeErr with
    | some e => (s, some e)
    | none =>
      let s₁ := { s with storageToken := some t, storageUser := some (StoredUser.enc u) }
      let s₂ := { s₁ with apiAuthHeader := some ("Bearer " ++ t) }
      ({ s₂ with dataToken := some t, dataUser := some u }, none)

/-- `signOut` of src/hooks/auth.tsx: `AsyncStorage.multiRemove` of both
keys (a no-op on absent keys, never rejecting per the storage contract),
then `setData({} as AuthState)`.  The authorization header is not touched
(the source does not clear it). -/
def signOut (s : SysState) : SysState :=
  { s with storageToken := none, storageUser := none,
           dataToken := none, dataUser := none }

/-- `updateUser` of src/hooks/auth.tsx:
`setData({token: data.token, user})` (so `token` is whatever `data.token`
currently is, possibly `undefined`), then
`AsyncStorage.setItem('@GoBarber:user', JSON.stringify(user))`. -/
def updateUser (user : User) (s : SysState) : SysState :=
  { s with dataUser := some user,
           storageUser := some (StoredUser.enc user) }

/-- One operation of the session module, carrying the outcomes of its
external calls where it has any. -/
inductive Op where
  | restore
  | doSignIn (remote : Except String (String × User)) (storeErr : Option String)
  | doSignOut
  | doUpdateUser (u : User)
deriving Repr

/-- Effect of one operation on the state (the thrown error, if any, is
dropped: the state reached is what the next operation sees). -/
def step (s : SysState) : Op → SysState
  | .restore => (loadStorageData s).1
  | .doSignIn remote storeErr => (signIn remote storeErr s).1
  | .doSignOut => signOut s
  | .doUpdateUser u => updateUser u s

/-- Running a sequence of operations. -/
def run (s : SysState) (ops : List Op) : SysState :=
  List.foldl step s ops

/-- The credential invariant of the spec: the in-memory `token` and `user`
are set or cleared together. -/
def credInv (s : SysState) : Prop :=
  s.dataToken.isSome = s.dataUser.isSome

instance (s : SysState) : Decidable (credInv s) := by
  unfold credInv; infer_instance

/-- Guard of one operation: `updateUser` is invoked only while a session
exists (a token is present); the other operations are unguarded. -/
def opGuardOk (s : SysState) : Op → Bool
  | .doUpdateUser _ => s.dataToken.isSome
  | _ => true

/-- A run is guarded when every operation satisfies its guard in the state
it is applied to. -/
def guardedRun : SysState → List Op → Bool
  | _, [] => true
  | s, op :: ops => opGuardOk s op && guardedRun (step s op) ops

/-- A fresh process start with the given surviving storage contents:
in-memory `data` is `{} as AuthState`, `loading` starts `true`, and the
axios instance is recreated with no authorization header. -/
def restart (s : SysState) : SysState :=
  { storageToken := s.storageToken, storageUser := s.storageUser,
    apiAuthHeader := none, dataToken := none, dataUser := none,
    loading := true }

/-- The state at first-ever process start: empty storage, empty credential,
no header, loading. -/
def initState : SysState :=
  { storageToken := none, storageUser := none, apiAuthHeader := none,
    dataToken := none, dataUser := none, loading := true }

/-- The concrete user record of the spec's scenario (§8). -/
def u0 : User :=
  { id := "u1", name := "Ana", email := "a@b.com", avatarURL := "http://x/a.png" }

/-- The value a component reads from the auth context: either the value a
live `AuthProvider` put there, or the default `{} as AuthContextData`
given to `createContext`, which `useContext` returns when no provider is
above the component. -/
inductive AuthContextValue where
  | emptyDefault
  | provided (user : Option User) (loading : Bool)
deriving Repr, DecidableEq

/-- JS truthiness of the context value: every JS object — including the
empty object `{} as AuthContextData` — is truthy. -/
def jsObjectTruthy : AuthContextValue → Bool := fun _ => true

/-- `useAuth` of src/hooks/auth.tsx: reads the context and throws
`'useAuth deve ser utilizado com um AuthProvider'` when `!context`;
otherwise returns the context value. -/
def useAuth (context : AuthContextValue) : Except String AuthContextValue :=
  if jsObjectTruthy context = false then
    .error "useAuth deve ser utilizado com um AuthProvider"
  else
    .ok context

/-- A state whose persisted user entry is a non-parseable string while the
token entry is present: the failing input for the malformed-restore claim. -/
def malformedRestoreState : SysState :=
  { storageToken := some "t1", storageUser := some (StoredUser.malformed "oops"),
    apiAuthHeader := none, dataToken := none, dataUser := none, loading := true }

/-- Claim C1: the claim says a malformed persisted user entry at restore
time is treated as no session, with the loading flag reaching false and no
crash.  Evaluating the source's `loadStorageData` at such an input shows
the opposite: `JSON.parse` throws (there is no try/catch), the error
escapes before `setLoading(false)` runs, so loading stays true — and the
authorization header has already been set from the stale token. -/
theorem C1_malformed_restore_throws :
    (loadStorageData malformedRestoreState).2 = some "SyntaxError" ∧
    (loadStorageData malformedRestoreState).1.loading = true ∧
    (loadStorageData malformedRestoreState).1.dataUser = none ∧
    (loadStorageData malformedRestoreState).1.apiAuthHeader = some ("Bearer " ++ "t1") := by
  refine ⟨rfl, rfl, rfl, rfl⟩

/-- Claim C2: if a sign-in call fails — the remote login rejects or the
batched persisted write fails — the failure propagates and no session
state is mutated: storage cells, authorization header and in-memory
credential all keep their prior values. -/
theorem C2_signIn_failure_no_mutation (remote : Except String (String × User))
    (storeErr : Option String) (s : SysState)
    (h : (signIn remote storeErr s).2.isSome = true) :
    (signIn remote storeErr s).1 = s := by
  match remote, storeErr with
  | .error e, _ => rfl
  | .ok (t, u), some e => rfl
  | .ok (t, u), none => simp [signIn] at h

/-- Witness for C2: a concrete rejected login leaves the initial state
untouched. -/
theorem C2_signIn_failure_no_mutation_witness :
    (signIn (Except.error "Request failed with status code 401") none initState).2.isSome = true ∧
    (signIn (Except.error "Request failed with status code 401") none initState).1 = initState :=
  ⟨rfl, C2_signIn_failure_no_mutation _ _ _ rfl⟩

/-- Claim C3: every successful sign-in returning `{token, user}` leaves the
current user equal to that user record and the authorization header equal
to `"Bearer " ++ token`. -/
theorem C3_signIn_success_user_and_header (s : SysState) (t : String) (u : User)
    (storeErr : Option String)
    (h : (signIn (Except.ok (t, u)) storeErr s).2 = none) :
    (signIn (Except.ok (t, u)) storeErr s).1.dataUser = some u ∧
    (signIn (Except.ok (t, u)) storeErr s).1.apiAuthHeader = some ("Bearer " ++ t) := by
  match storeErr with
  | none => exact ⟨rfl, rfl⟩
  | some e => simp [signIn] at h

/-- Witness for C3: the spec's concrete scenario — remote returns token
"abc123" and the user record `u0`. -/
theorem C3_signIn_success_user_and_header_witness :
    (signIn (Except.ok ("abc123", u0)) none initState).2 = none ∧
    ((signIn (Except.ok ("abc123", u0)) none initState).1.dataUser = some u0 ∧
     (signIn (Except.ok ("abc123", u0)) none initState).1.apiAuthHeader =
       some ("Bearer " ++ "abc123")) :=
  ⟨rfl, C3_signIn_success_user_and_header initState "abc123" u0 none rfl⟩

/-- Claim C6: the claim says accessing the facade outside a live provider
fails fast with a clear error.  Evaluating `useAuth` at the no-provider
context value shows it does not: `createContext` was given
`{} as AuthContextData` as default, every JS object is truthy, so the
`!context` guard never fires and `useAuth` silently returns the empty
facade (all members undefined). -/
theorem C6_useAuth_no_provider_silent :
    useAuth AuthContextValue.emptyDefault = Except.ok AuthContextValue.emptyDefault := by
  rfl

/-- Claim C7: after every sign-out the current user is absent, both
persisted entries are removed, and a restore after a simulated restart
also yields an absent session. -/
theorem C7_signOut_clears_everything (s : SysState) :
    (signOut s).dataUser = none ∧
    (signOut s).storageToken = none ∧
    (signOut s).storageUser = none ∧
    (loadStorageData (restart (signOut s))).1.dataUser = none ∧
    (loadStorageData (restart (signOut s))).1.dataToken = none := by
  refine ⟨rfl, rfl, rfl, rfl, rfl⟩

/-- Claim C9: sign-out is idempotent — a second sign-out reproduces the
state of the first (the persisted delete on already-absent keys is a
no-op), and it leaves the empty credential without failing. -/
theorem C9_signOut_idempotent (s : SysState) :
    signOut (signOut s) = signOut s ∧
    (signOut s).dataToken = none ∧
    (signOut s).dataUser = none := by
  refine ⟨rfl, rfl, rfl⟩

/-- Counterexample to C4 as stated: the claim quantifies over every token,
but a successful sign-in that receives the empty-string token stores it,
and the restore's JS truthiness test (`token[1] && user[1]`) treats the
stored empty string as absent, so the restart-simulated restore yields no
session rather than the signed-in credential. -/
theorem C4_roundtrip_counterexample :
    (signIn (Except.ok ("", u0)) none initState).2 = none ∧
    (signIn (Except.ok ("", u0)) none initState).1.dataToken = some "" ∧
    (signIn (Except.ok ("", u0)) none initState).1.dataUser = some u0 ∧
    (loadStorageData (restart (signIn (Except.ok ("", u0)) none initState).1)).1.dataToken
      = none ∧
    (loadStorageData (restart (signIn (Except.ok ("", u0)) none initState).1)).1.dataUser
      = none := by
  refine ⟨rfl, rfl, rfl, by decide, by decide⟩

/-- Claim C4 (amended: for every nonempty token): a successful sign-in
receiving `{token: t, user: u}` with `t ≠ ""` followed by a
restart-simulated restore yields the in-memory credential
`{token: t, user: u}` field-for-field. -/
theorem C4_roundtrip (s : SysState) (t : String) (u : User) (h : t ≠ "") :
    (loadStorageData (restart (signIn (Except.ok (t, u)) none s).1)).1.dataToken = some t ∧
    (loadStorageData (restart (signIn (Except.ok (t, u)) none s).1)).1.dataUser = some u := by
  simp [signIn, restart, loadStorageData, strTruthy, StoredUser.truthy, jsonParseUser, h]

/-- Witness for C4: round-trip at token "t1" and user `u0`. -/
theorem C4_roundtrip_witness :
    "t1" ≠ "" ∧
    ((loadStorageData (restart (signIn (Except.ok ("t1", u0)) none initState).1)).1.dataToken
       = some "t1" ∧
     (loadStorageData (restart (signIn (Except.ok ("t1", u0)) none initState).1)).1.dataUser
       = some u0) :=
  ⟨by decide, C4_roundtrip initState "t1" u0 (by decide)⟩

/-- The modified user record used to exercise update-user. -/
def u1 : User :=
  { id := "u1", name := "Ana Maria", email := "a@b.com", avatarURL := "http://x/a.png" }

/-- Claim C8: update-user preserves the token — for a session holding
token `t`, the in-memory token stays `t` and the persisted token entry is
untouched, while the user is replaced (in memory, and in the persisted
user entry as its serialization) by the given record. -/
theorem C8_updateUser_preserves_token (s : SysState) (t : String) (u : User)
    (h : s.dataToken = some t) :
    (updateUser u s).dataToken = some t ∧
    (updateUser u s).storageToken = s.storageToken ∧
    (updateUser u s).dataUser = some u ∧
    (updateUser u s).storageUser = some (StoredUser.enc u) := by
  exact ⟨h, rfl, rfl, rfl⟩

/-- Witness for C8: sign in with token "t1", then update the user record's
name. -/
theorem C8_updateUser_preserves_token_witness :
    (signIn (Except.ok ("t1", u0)) none initState).1.dataToken = some "t1" ∧
    ((updateUser u1 (signIn (Except.ok ("t1", u0)) none initState).1).dataToken = some "t1" ∧
     (updateUser u1 (signIn (Except.ok ("t1", u0)) none initState).1).storageToken =
       (signIn (Except.ok ("t1", u0)) none initState).1.storageToken ∧
     (updateUser u1 (signIn (Except.ok ("t1", u0)) none initState).1).dataUser = some u1 ∧
     (updateUser u1 (signIn (Except.ok ("t1", u0)) none initState).1).storageUser =
       some (StoredUser.enc u1)) :=
  ⟨rfl, C8_updateUser_preserves_token _ "t1" u1 rfl⟩

/-- Claim C10: a restore that finds exactly one of the two persisted
entries present treats the session as absent — the in-memory credential
stays empty, the authorization header is not touched, no error is thrown,
and the loading flag reaches false. -/
theorem C10_partial_storage_no_session (s : SysState)
    (hpart : s.storageToken.isSome ≠ s.storageUser.isSome)
    (htok : s.dataToken = none) (huser : s.dataUser = none) :
    (loadStorageData s).1.dataToken = none ∧
    (loadStorageData s).1.dataUser = none ∧
    (loadStorageData s).1.apiAuthHeader = s.apiAuthHeader ∧
    (loadStorageData s).2 = none ∧
    (loadStorageData s).1.loading = false := by
  rcases hst : s.storageToken with _ | t <;> rcases hsu : s.storageUser with _ | su
  · simp [loadStorageData, hst, hsu, htok, huser]
  · simp [loadStorageData, hst, hsu, htok, huser]
  · simp [loadStorageData, hst, hsu, htok, huser]
  · rw [hst, hsu] at hpart
    simp at hpart

/-- A concrete partial storage state: token present, user entry absent,
with a leftover header value to observe that restore does not touch it. -/
def partialState : SysState :=
  { storageToken := some "t1", storageUser := none,
    apiAuthHeader := some ("Bearer " ++ "old"),
    dataToken := none, dataUser := none, loading := true }

/-- Witness for C10: restore over `partialState`. -/
theorem C10_partial_storage_no_session_witness :
    partialState.storageToken.isSome ≠ partialState.storageUser.isSome ∧
    ((loadStorageData partialState).1.dataToken = none ∧
     (loadStorageData partialState).1.dataUser = none ∧
     (loadStorageData partialState).1.apiAuthHeader = partialState.apiAuthHeader ∧
     (loadStorageData partialState).2 = none ∧
     (loadStorageData partialState).1.loading = false) :=
  ⟨by decide, C10_partial_storage_no_session partialState (by decide) rfl rfl⟩

/-- Counterexample to C5 as stated: from the initial empty state (which
satisfies the invariant), the single operation `updateUser u0` — the
source does not guard update-user against a missing session, it sets
`{token: data.token, user}` with `data.token` undefined — reaches a state
whose user is present while its token is absent. -/
theorem C5_invariant_counterexample :
    credInv initState ∧
    (run initState [Op.doUpdateUser u0]).dataUser = some u0 ∧
    (run initState [Op.doUpdateUser u0]).dataToken = none := by
  refine ⟨rfl, rfl, rfl⟩

/-- Each guarded operation preserves the credential invariant: restore,
sign-in and sign-out unconditionally, update-user when a token is
present. -/
lemma credInv_step (s : SysState) (op : Op) (hInv : credInv s)
    (hop : opGuardOk s op = true) : credInv (step s op) := by
  obtain ⟨st, su, hd, dt, du, l⟩ := s
  unfold credInv at *
  cases op with
  | restore =>
    rcases st with _ | t
    · exact hInv
    rcases su with _ | su
    · exact hInv
    rcases su with u | str <;>
      simp [step, loadStorageData, jsonParseUser, StoredUser.truthy, strTruthy] <;>
      split_ifs <;> simp_all
  | doSignIn remote storeErr =>
    rcases remote with e | p
    · exact hInv
    rcases p with ⟨t, u⟩
    rcases storeErr with _ | e
    · simp [step, signIn]
    · exact hInv
  | doSignOut => simp [step, signOut]
  | doUpdateUser u =>
    simp only [opGuardOk] at hop
    simpa [step, updateUser] using hop


/-- Claim C5 (amended: update-user invoked only while a session exists):
every state reached from an invariant-satisfying state by a sequence of
restore, sign-in, sign-out, and update-user operations whose guards hold
— update-user only while a token is present — satisfies the credential
invariant: token and user set or cleared together. -/
theorem C5_guarded_invariant (s : SysState) (ops : List Op)
    (hInv : credInv s) (hg : guardedRun s ops = true) :
    credInv (run s ops) := by
  induction ops generalizing s with
  | nil => exact hInv
  | cons op ops ih =>
    unfold guardedRun at hg
    rw [Bool.and_eq_true] at hg
    obtain ⟨hop, hrest⟩ := hg
    exact ih (step s op) (credInv_step s op hInv hop) hrest

/-- Witness for C5 (amended): a guarded run — sign in, update the user
while signed in, sign out — keeps the invariant. -/
theorem C5_guarded_invariant_witness :
    credInv initState ∧
    guardedRun initState
      [Op.doSignIn (Except.ok ("t1", u0)) none, Op.doUpdateUser u1, Op.doSignOut] = true ∧
    credInv (run initState
      [Op.doSignIn (Except.ok ("t1", u0)) none, Op.doUpdateUser u1, Op.doSignOut]) :=
  ⟨by decide, by decide,
   C5_guarded_invariant _ _ (by decide) (by decide)⟩

end GoBarber
